import Mathlib

/-!
Verification development for the `lammpsio` library: the `Snapshot`/`Box`/
`Topology` data model and the LAMMPS data/dump file codecs.

The Python source is shallowly embedded:
* `numpy` float arrays become lists of rationals (`ℚ`); the fixed-precision
  decimal formatting used when writing files (`{:.8f}`, `{:f}`, ...) is modelled
  as exact, so "within floating tolerance" statements are proved exactly;
* lazily-initialized per-particle arrays become `Option (List _)` fields with
  getter functions that substitute the documented defaults,
* raised exceptions become `Except Err _` results, with `Err` distinguishing
  the Python exception classes (`ValueError`, `IndexError`, ...).
-/

namespace Lammpsio


instance {ε α : Type} [DecidableEq ε] [DecidableEq α] :
    DecidableEq (Except ε α) := fun x y =>
  match x, y with
  | .ok a, .ok b =>
      if h : a = b then isTrue (by rw [h])
      else isFalse (by intro hc; cases hc; exact h rfl)
  | .error a, .error b =>
      if h : a = b then isTrue (by rw [h])
      else isFalse (by intro hc; cases hc; exact h rfl)
  | .ok _, .error _ => isFalse (by intro hc; cases hc)
  | .error _, .ok _ => isFalse (by intro hc; cases hc)

/-- Python exception classes that the embedded code can raise. -/
inductive Err where
  | typeError
  | valueError
  | indexError
  | keyError
  | osError
  | attributeError
  deriving DecidableEq, Repr

/-- A 3-component vector (used for box vectors and per-particle 3-vectors). -/
structure V3 (α : Type) where
  x : α
  y : α
  z : α
  deriving DecidableEq, Repr

/-- Simulation box: `low`, `high` and optional `tilt` (xy, xz, yz), as in
`box.py`.  The setters only validate that the values are 3-vectors, which the
`V3` type guarantees. -/
structure Box where
  low : V3 ℚ
  high : V3 ℚ
  tilt : Option (V3 ℚ)
  deriving DecidableEq, Repr

/-- The numeric tilt of a box: an absent tilt means all factors are zero. -/
def Box.effTilt (b : Box) : V3 ℚ :=
  b.tilt.getD ⟨0, 0, 0⟩

/-- Upper-triangular box matrix `[[lx, xy, xz], [0, ly, yz], [0, 0, lz]]`. -/
structure Mat3 where
  m00 : ℚ
  m01 : ℚ
  m02 : ℚ
  m10 : ℚ
  m11 : ℚ
  m12 : ℚ
  m20 : ℚ
  m21 : ℚ
  m22 : ℚ
  deriving DecidableEq, Repr

/-- `Box.to_matrix`: origin plus upper-triangular edge-vector matrix. -/
def Box.to_matrix (b : Box) : V3 ℚ × Mat3 :=
  let t := b.effTilt
  (b.low,
    ⟨b.high.x - b.low.x, t.x, t.y,
     0, b.high.y - b.low.y, t.z,
     0, 0, b.high.z - b.low.z⟩)

/-- `Box.from_matrix`: validates the matrix is upper triangular (the 3x3 shape
is guaranteed by `Mat3`), derives `high = low + diag`, and drops an all-zero
tilt unless `force_triclinic` is set. -/
def Box.from_matrix (low : V3 ℚ) (m : Mat3) (forceTriclinic : Bool) :
    Except Err Box :=
  if m.m10 ≠ 0 ∨ m.m20 ≠ 0 ∨ m.m21 ≠ 0 then
    .error .valueError
  else
    let high : V3 ℚ := ⟨low.x + m.m00, low.y + m.m11, low.z + m.m22⟩
    let tilt : V3 ℚ := ⟨m.m01, m.m02, m.m12⟩
    if ¬forceTriclinic ∧ tilt = ⟨0, 0, 0⟩ then
      .ok ⟨low, high, none⟩
    else
      .ok ⟨low, high, some tilt⟩

/-- A 6-element HOOMD-convention box array `(Lx, Ly, Lz, xy/Ly, xz/Lz, yz/Lz)`,
with the `(6,)` shape guaranteed by the type. -/
structure Hoomd6 where
  len : V3 ℚ
  tlt : V3 ℚ
  deriving DecidableEq, Repr

/-- `Box.to_hoomd_convention`: edge lengths plus tilt factors normalized by the
perpendicular lengths (zero when the tilt is absent).  In the source a zero
perpendicular length makes the numpy division produce `inf`/`nan`; these slots
are only ever used by `from_hoomd_convention` in the 3-D branch, and in the 2-D
branch (`Lz = 0`) they are overwritten by zero, so the value chosen for
division by zero (here Lean's `q / 0 = 0`) is never observable in the
round-trip theorems below. -/
def Box.to_hoomd_convention (b : Box) : Hoomd6 :=
  let lx := b.high.x - b.low.x
  let ly := b.high.y - b.low.y
  let lz := b.high.z - b.low.z
  match b.tilt with
  | some t => ⟨⟨lx, ly, lz⟩, ⟨t.x / ly, t.y / lz, t.z / lz⟩⟩
  | none => ⟨⟨lx, ly, lz⟩, ⟨0, 0, 0⟩⟩

/-- `Box.from_hoomd_convention`: infer the dimensionality when unspecified,
denormalize the tilt factors (2-D zeroes xz/yz and forces `Lz = 1` when it was
0), build the box matrix, center the box when `low` is absent, and finish via
`from_matrix`. -/
def Box.from_hoomd_convention (bd : Hoomd6) (low? : Option (V3 ℚ))
    (forceTriclinic : Bool) (dimensions? : Option Int) : Except Err Box :=
  let dims : Int := dimensions?.getD (if bd.len.z ≠ 0 then 3 else 2)
  if dims ≠ 2 ∧ dims ≠ 3 then
    .error .valueError
  else
    let lt : V3 ℚ × V3 ℚ :=
      if dims = 3 then
        (bd.len, ⟨bd.tlt.x * bd.len.y, bd.tlt.y * bd.len.z, bd.tlt.z * bd.len.z⟩)
      else
        (⟨bd.len.x, bd.len.y, if bd.len.z = 0 then 1 else bd.len.z⟩,
         ⟨bd.tlt.x * bd.len.y, 0, 0⟩)
    let m : Mat3 :=
      ⟨lt.1.x, lt.2.x, lt.2.y,
       0, lt.1.y, lt.2.z,
       0, 0, lt.1.z⟩
    let low : V3 ℚ :=
      match low? with
      | some lo => lo
      | none =>
          ⟨-(1 / 2 : ℚ) * (m.m00 + m.m01 + m.m02),
           -(1 / 2 : ℚ) * (m.m10 + m.m11 + m.m12),
           -(1 / 2 : ℚ) * (m.m20 + m.m21 + m.m22)⟩
    Box.from_matrix low m forceTriclinic

/-- The box-bounds block of one frame of a dump file: the number of tokens of
the `ITEM: BOX BOUNDS ...` header line (9 for triclinic, 6 for orthorhombic)
and the three bounds rows that follow it. -/
structure DumpBoxSec where
  headerTokens : Nat
  rows : List (List ℚ)
  deriving DecidableEq, Repr

/-- The box-bounds block written by `DumpFile.create`: for a triclinic box the
x/y bounds are shifted by the min/max of the relevant tilt combinations and
each row carries one tilt factor; an orthorhombic box is written unshifted. -/
def dumpBoxBounds (b : Box) : DumpBoxSec :=
  match b.tilt with
  | some t =>
      ⟨9,
       [[b.low.x + min (min 0 t.x) (min t.y (t.x + t.y)),
         b.high.x + max (max 0 t.x) (max t.y (t.x + t.y)), t.x],
        [b.low.y + min 0 t.z, b.high.y + max 0 t.z, t.y],
        [b.low.z, b.high.z, t.z]]⟩
  | none =>
      ⟨6,
       [[b.low.x, b.high.x], [b.low.y, b.high.y], [b.low.z, b.high.z]]⟩

/-- Indexing one parsed float from a bounds row (`box_[i][j]`). -/
def ratAt (row : List ℚ) (j : Nat) : Except Err ℚ :=
  match row[j]? with
  | some q => .ok q
  | none => .error .indexError

/-- The box-bounds parsing of `DumpFile.__iter__` (state 2): classify the
header by token count, read three rows, and for a triclinic box undo the
lo/hi shift applied by `DumpFile.create`. -/
def readDumpBox (sec : DumpBoxSec) : Except Err Box := do
  let isTri ←
    if sec.headerTokens = 9 then pure true
    else if sec.headerTokens = 6 then pure false
    else Except.error Err.osError
  match sec.rows with
  | [r0, r1, r2] => do
      let xlo ← ratAt r0 0
      let xhi ← ratAt r0 1
      let ylo ← ratAt r1 0
      let yhi ← ratAt r1 1
      let zlo ← ratAt r2 0
      let zhi ← ratAt r2 1
      if isTri then do
        let xy ← ratAt r0 2
        let xz ← ratAt r1 2
        let yz ← ratAt r2 2
        Except.ok
          ⟨⟨xlo - min (min 0 xy) (min xz (xy + xz)), ylo - min 0 yz, zlo⟩,
           ⟨xhi - max (max 0 xy) (max xz (xy + xz)), yhi - max 0 yz, zhi⟩,
           some ⟨xy, xz, yz⟩⟩
      else
        Except.ok ⟨⟨xlo, ylo, zlo⟩, ⟨xhi, yhi, zhi⟩, none⟩
  | _ => Except.error Err.osError


/-- C6 -/
theorem dump_box_shift_roundtrip (b : Box) (t : V3 ℚ) (h : b.tilt = some t) :
    (dumpBoxBounds b).rows =
      [[b.low.x + min (min 0 t.x) (min t.y (t.x + t.y)),
        b.high.x + max (max 0 t.x) (max t.y (t.x + t.y)), t.x],
       [b.low.y + min 0 t.z, b.high.y + max 0 t.z, t.y],
       [b.low.z, b.high.z, t.z]] ∧
    readDumpBox (dumpBoxBounds b) = .ok b := by
  obtain ⟨lo, hi, tl⟩ := b
  cases h
  refine ⟨rfl, ?_⟩
  simp [dumpBoxBounds, readDumpBox, ratAt, bind, Except.bind, pure, Except.pure]

theorem dump_box_shift_roundtrip_witness :
    (⟨⟨-5, -10, -1⟩, ⟨2, 10, 8⟩, some ⟨2, -2, 1⟩⟩ : Box).tilt = some ⟨2, -2, 1⟩ ∧
    readDumpBox (dumpBoxBounds ⟨⟨-5, -10, -1⟩, ⟨2, 10, 8⟩, some ⟨2, -2, 1⟩⟩) =
      .ok ⟨⟨-5, -10, -1⟩, ⟨2, 10, 8⟩, some ⟨2, -2, 1⟩⟩ :=
  ⟨rfl, (dump_box_shift_roundtrip _ _ rfl).2⟩


/-- Triclinic box with an all-zero tilt, the C2 counterexample input. -/
def zeroTiltBox : Box := ⟨⟨0, 0, 0⟩, ⟨1, 1, 1⟩, some ⟨0, 0, 0⟩⟩

/-- C2 counterexample -/
theorem hoomd_roundtrip_cex :
    Box.from_hoomd_convention zeroTiltBox.to_hoomd_convention (some zeroTiltBox.low) false none =
      .ok ⟨⟨0, 0, 0⟩, ⟨1, 1, 1⟩, none⟩ ∧ zeroTiltBox.tilt = some ⟨0, 0, 0⟩ := by
  refine ⟨?_, rfl⟩
  simp [zeroTiltBox, Box.to_hoomd_convention, Box.from_hoomd_convention, Box.from_matrix]

/-- C2 amended -/
theorem hoomd_roundtrip_amended (b : Box) :
    (b.high.y ≠ b.low.y → b.high.z ≠ b.low.z →
      ∃ b₂, Box.from_hoomd_convention b.to_hoomd_convention (some b.low) false none = .ok b₂ ∧
        b₂.low = b.low ∧ b₂.high = b.high ∧ b₂.effTilt = b.effTilt ∧
        (b₂.tilt.isSome ↔ b.tilt.isSome ∧ b.effTilt ≠ ⟨0, 0, 0⟩)) ∧
    (b.high.z = b.low.z →
      ∃ b₂, Box.from_hoomd_convention b.to_hoomd_convention (some b.low) false none = .ok b₂ ∧
        b₂.low = b.low ∧ b₂.high.z = b₂.low.z + 1 ∧ b₂.effTilt.y = 0 ∧ b₂.effTilt.z = 0) := by
  obtain ⟨⟨lx, ly, lz⟩, ⟨hx, hy, hz⟩, tl⟩ := b
  constructor
  · intro hy1 hz1
    simp only at hy1 hz1
    have hy0 : hy - ly ≠ 0 := sub_ne_zero_of_ne hy1
    have hz0 : hz - lz ≠ 0 := sub_ne_zero_of_ne hz1
    cases tl with
    | none =>
        refine ⟨⟨⟨lx, ly, lz⟩, ⟨hx, hy, hz⟩, none⟩, ?_, rfl, rfl, rfl, by simp [Box.effTilt]⟩
        simp only [Box.to_hoomd_convention, Box.from_hoomd_convention, Box.from_matrix]
        simp [hz0, Box.mk.injEq, V3.mk.injEq]
    | some t =>
        obtain ⟨tx, ty, tz⟩ := t
        by_cases ht : tx = 0 ∧ ty = 0 ∧ tz = 0
        · obtain ⟨h1, h2, h3⟩ := ht
          subst h1 h2 h3
          refine ⟨⟨⟨lx, ly, lz⟩, ⟨hx, hy, hz⟩, none⟩, ?_, rfl, rfl, by simp [Box.effTilt], by simp [Box.effTilt]⟩
          simp only [Box.to_hoomd_convention, Box.from_hoomd_convention, Box.from_matrix]
          simp [hz0, Box.mk.injEq, V3.mk.injEq]
        · refine ⟨⟨⟨lx, ly, lz⟩, ⟨hx, hy, hz⟩, some ⟨tx, ty, tz⟩⟩, ?_, rfl, rfl, rfl,
            by simp [Box.effTilt, V3.mk.injEq]; tauto⟩
          simp only [Box.to_hoomd_convention, Box.from_hoomd_convention, Box.from_matrix]
          simp [hz0, Box.mk.injEq, V3.mk.injEq, div_mul_cancel₀, hy0, ht]
  · intro hz1
    simp only at hz1
    have hz0 : hz - lz = 0 := by rw [hz1]; ring
    cases tl with
    | none =>
        refine ⟨⟨⟨lx, ly, lz⟩, ⟨hx, hy, lz + 1⟩, none⟩, ?_, rfl, rfl, by simp [Box.effTilt], by simp [Box.effTilt]⟩
        simp only [Box.to_hoomd_convention, Box.from_hoomd_convention, Box.from_matrix]
        simp [hz0, Box.mk.injEq, V3.mk.injEq]
    | some t =>
        obtain ⟨tx, ty, tz⟩ := t
        by_cases ht : tx = 0 ∨ hy - ly = 0
        · refine ⟨⟨⟨lx, ly, lz⟩, ⟨hx, hy, lz + 1⟩, none⟩, ?_, rfl, rfl, by simp [Box.effTilt], by simp [Box.effTilt]⟩
          simp only [Box.to_hoomd_convention, Box.from_hoomd_convention, Box.from_matrix]
          simp [hz0, Box.mk.injEq, V3.mk.injEq, ht]
        · refine ⟨⟨⟨lx, ly, lz⟩, ⟨hx, hy, lz + 1⟩, some ⟨tx / (hy - ly) * (hy - ly), 0, 0⟩⟩, ?_, rfl, rfl,
            by simp [Box.effTilt], by simp [Box.effTilt]⟩
          simp only [Box.to_hoomd_convention, Box.from_hoomd_convention, Box.from_matrix]
          simp [hz0, Box.mk.injEq, V3.mk.injEq, ht]
          tauto

/-- Nondegenerate triclinic box used to instantiate the C2 witness. -/
def triBox : Box := ⟨⟨-5, -10, -1⟩, ⟨2, 10, 8⟩, some ⟨2, -2, 1⟩⟩

/-- A 2-D (zero z-length) box used to instantiate the C2 witness. -/
def flatBox : Box := ⟨⟨0, 0, 0⟩, ⟨1, 2, 0⟩, none⟩

/-- C2 witness -/
theorem hoomd_roundtrip_amended_witness :
    (triBox.high.y ≠ triBox.low.y ∧ triBox.high.z ≠ triBox.low.z ∧
      (∃ b₂, Box.from_hoomd_convention triBox.to_hoomd_convention (some triBox.low) false none = .ok b₂ ∧
        b₂.low = triBox.low ∧ b₂.high = triBox.high ∧ b₂.effTilt = triBox.effTilt ∧
        (b₂.tilt.isSome ↔ triBox.tilt.isSome ∧ triBox.effTilt ≠ ⟨0, 0, 0⟩))) ∧
    (flatBox.high.z = flatBox.low.z ∧
      ∃ b₂, Box.from_hoomd_convention flatBox.to_hoomd_convention (some flatBox.low) false none = .ok b₂ ∧
        b₂.low = flatBox.low ∧ b₂.high.z = b₂.low.z + 1 ∧ b₂.effTilt.y = 0 ∧ b₂.effTilt.z = 0) :=
  ⟨⟨by decide, by decide, (hoomd_roundtrip_amended triBox).1 (by decide) (by decide)⟩,
   by decide, (hoomd_roundtrip_amended flatBox).2 (by decide)⟩


/-! ### Python-dict association lists and `LabelMap` (`topology.py`) -/

/-- Python-dict lookup on an insertion-ordered association list. -/
def dictGet? {K V : Type} [BEq K] (l : List (K × V)) (k : K) : Option V :=
  (l.find? (fun p => p.1 == k)).map (fun p => p.2)

/-- Python-dict assignment: overwrite in place when the key exists, else
append (insertion order is preserved). -/
def dictSet {K V : Type} [BEq K] (l : List (K × V)) (k : K) (v : V) :
    List (K × V) :=
  if l.any (fun p => p.1 == k) then
    l.map (fun p => if p.1 == k then (k, v) else p)
  else
    l ++ [(k, v)]

/-- Python-dict deletion of a key (no-op when absent; presence is checked by
the callers below). -/
def dictDel {K V : Type} [BEq K] (l : List (K × V)) (k : K) : List (K × V) :=
  l.filter (fun p => !(p.1 == k))

/-- `LabelMap`: a forward map from typeid to label plus the `_inverse_map`
maintained by `__setitem__`/`__delitem__`. -/
structure LabelMap where
  map : List (Int × String)
  inverse : List (String × Int)
  deriving DecidableEq, Repr

/-- A `LabelMap()` with no entries. -/
def LabelMap.empty : LabelMap := ⟨[], []⟩

/-- `LabelMap.__setitem__`: `self._map[key] = value` followed by
`self._inverse_map[value] = key`.  A stale inverse entry for the key's
previous label (when overwriting) is not removed. -/
def LabelMap.setItem (m : LabelMap) (k : Int) (v : String) : LabelMap :=
  ⟨dictSet m.map k v, dictSet m.inverse v k⟩

/-- `LabelMap.__delitem__`: `value = self._map.pop(key)` then
`del self._inverse_map[value]` (each raising `KeyError` when absent). -/
def LabelMap.delItem (m : LabelMap) (k : Int) : Except Err LabelMap :=
  match dictGet? m.map k with
  | none => .error .keyError
  | some v =>
      match dictGet? m.inverse v with
      | none => .error .keyError
      | some _ => .ok ⟨dictDel m.map k, dictDel m.inverse v⟩

/-- Mutual consistency of the two directions of a `LabelMap`: every forward
entry is found by inverse lookup, and every inverse entry reflects a current
forward entry. -/
def LabelMap.consistent (m : LabelMap) : Prop :=
  (∀ p ∈ m.map, dictGet? m.inverse p.2 = some p.1) ∧
  (∀ q ∈ m.inverse, dictGet? m.map q.2 = some q.1)

/-- C8 -/
theorem labelmap_overwrite_inconsistent :
    ((LabelMap.empty.setItem 1 "A").setItem 1 "B").map = [(1, "B")] ∧
    ((LabelMap.empty.setItem 1 "A").setItem 1 "B").inverse = [("A", 1), ("B", 1)] ∧
    ¬ ((LabelMap.empty.setItem 1 "A").setItem 1 "B").consistent := by
  refine ⟨by decide, by decide, ?_⟩
  intro h
  have := h.2 ("A", 1) (by decide)
  simp [dictGet?, LabelMap.empty, LabelMap.setItem, dictSet] at this

/-! ### `Topology` and `Snapshot` (`topology.py`, `snapshot.py`) -/

/-- Default id array `1..N` (`numpy.arange(1, N + 1)`). -/
def defaultIds (n : Nat) : List Int :=
  (List.range n).map (fun k : Nat => (k : Int) + 1)

/-- `numpy.amax` of an integer array.  On an empty array `numpy.amax` raises
`ValueError`: the embedding returns `0` for `[]` and models the raise at the
use sites instead — `DataFile.create` checks `numTypesRaisesB` at the points
where it evaluates `snapshot.num_types`, and in `readTopoSection` the `0`
falls into the `num_types < 1` branch of the same `ValueError`. -/
def amax (l : List Int) : Int :=
  match l with
  | [] => 0
  | a :: r => r.foldl max a

/-- A topology record (`Bonds`/`Angles`/`Dihedrals`/`Impropers` differ only in
`numMembers`): counts plus lazily-initialized `id`/`typeid`/`members` arrays
(`none` = never initialized). -/
structure Topology where
  N : Nat
  numMembers : Nat
  numTypes? : Option Int := none
  id? : Option (List Int) := none
  typeid? : Option (List Int) := none
  members? : Option (List (List Int)) := none
  deriving DecidableEq, Repr

/-- `Topology.has_id`. -/
def Topology.hasId (t : Topology) : Bool := t.id?.isSome

/-- `Topology.has_typeid`. -/
def Topology.hasTypeid (t : Topology) : Bool := t.typeid?.isSome

/-- `Topology.has_members`. -/
def Topology.hasMembers (t : Topology) : Bool := t.members?.isSome

/-- Value of the `Topology.id` getter (default `1..N`). -/
def Topology.idArr (t : Topology) : List Int := t.id?.getD (defaultIds t.N)

/-- Value of the `Topology.typeid` getter (default all 1). -/
def Topology.typeidArr (t : Topology) : List Int :=
  t.typeid?.getD (List.replicate t.N 1)

/-- Value of the `Topology.members` getter (default all 1). -/
def Topology.membersArr (t : Topology) : List (List Int) :=
  t.members?.getD (List.replicate t.N (List.replicate t.numMembers 1))

/-- `Topology.num_types`: the declared value if set, else the max typeid if
populated, else 1. -/
def Topology.numTypes (t : Topology) : Int :=
  match t.numTypes? with
  | some v => v
  | none => if t.hasTypeid then amax t.typeidArr else 1

/-- `Bonds(N, num_types)`. -/
def mkBonds (n : Nat) (numTypes? : Option Int) : Topology :=
  { N := n, numMembers := 2, numTypes? := numTypes? }

/-- `Angles(N, num_types)`. -/
def mkAngles (n : Nat) (numTypes? : Option Int) : Topology :=
  { N := n, numMembers := 3, numTypes? := numTypes? }

/-- `Dihedrals(N, num_types)`. -/
def mkDihedrals (n : Nat) (numTypes? : Option Int) : Topology :=
  { N := n, numMembers := 4, numTypes? := numTypes? }

/-- `Impropers(N, num_types)`. -/
def mkImpropers (n : Nat) (numTypes? : Option Int) : Topology :=
  { N := n, numMembers := 4, numTypes? := numTypes? }

/-- The `Snapshot` aggregate: `N`, box, step, declared type count, and the
eight lazily-initialized per-particle arrays (`none` = never initialized),
plus the four optional topology records. -/
structure Snapshot where
  N : Nat
  box : Box
  step : Option Int := none
  numTypes? : Option Int := none
  id? : Option (List Int) := none
  position? : Option (List (V3 ℚ)) := none
  velocity? : Option (List (V3 ℚ)) := none
  image? : Option (List (V3 Int)) := none
  molecule? : Option (List Int) := none
  typeid? : Option (List Int) := none
  charge? : Option (List ℚ) := none
  mass? : Option (List ℚ) := none
  bonds : Option Topology := none
  angles : Option Topology := none
  dihedrals : Option Topology := none
  impropers : Option Topology := none
  deriving DecidableEq, Repr

/-- `Snapshot(N, box, step, num_types)`: all per-particle arrays start
uninitialized. -/
def mkSnapshot (n : Nat) (b : Box) (step : Option Int)
    (numTypes? : Option Int) : Snapshot :=
  { N := n, box := b, step := step, numTypes? := numTypes? }

/-- `Snapshot.has_id`. -/
def Snapshot.hasId (s : Snapshot) : Bool := s.id?.isSome

/-- `Snapshot.has_position`. -/
def Snapshot.hasPosition (s : Snapshot) : Bool := s.position?.isSome

/-- `Snapshot.has_velocity`. -/
def Snapshot.hasVelocity (s : Snapshot) : Bool := s.velocity?.isSome

/-- `Snapshot.has_image`. -/
def Snapshot.hasImage (s : Snapshot) : Bool := s.image?.isSome

/-- `Snapshot.has_molecule`. -/
def Snapshot.hasMolecule (s : Snapshot) : Bool := s.molecule?.isSome

/-- `Snapshot.has_typeid`. -/
def Snapshot.hasTypeid (s : Snapshot) : Bool := s.typeid?.isSome

/-- `Snapshot.has_charge`. -/
def Snapshot.hasCharge (s : Snapshot) : Bool := s.charge?.isSome

/-- `Snapshot.has_mass`. -/
def Snapshot.hasMass (s : Snapshot) : Bool := s.mass?.isSome

/-- `Snapshot.has_bonds`: a record must be assigned and nonempty. -/
def Snapshot.hasBonds (s : Snapshot) : Bool :=
  match s.bonds with
  | some t => t.N > 0
  | none => false

/-- `Snapshot.has_angles`. -/
def Snapshot.hasAngles (s : Snapshot) : Bool :=
  match s.angles with
  | some t => t.N > 0
  | none => false

/-- `Snapshot.has_dihedrals`. -/
def Snapshot.hasDihedrals (s : Snapshot) : Bool :=
  match s.dihedrals with
  | some t => t.N > 0
  | none => false

/-- `Snapshot.has_impropers`. -/
def Snapshot.hasImpropers (s : Snapshot) : Bool :=
  match s.impropers with
  | some t => t.N > 0
  | none => false

/-- Value of the `Snapshot.id` getter (default `1..N`). -/
def Snapshot.idArr (s : Snapshot) : List Int := s.id?.getD (defaultIds s.N)

/-- Value of the `Snapshot.position` getter (default zeros). -/
def Snapshot.positionArr (s : Snapshot) : List (V3 ℚ) :=
  s.position?.getD (List.replicate s.N ⟨0, 0, 0⟩)

/-- Value of the `Snapshot.velocity` getter (default zeros). -/
def Snapshot.velocityArr (s : Snapshot) : List (V3 ℚ) :=
  s.velocity?.getD (List.replicate s.N ⟨0, 0, 0⟩)

/-- Value of the `Snapshot.image` getter (default zeros). -/
def Snapshot.imageArr (s : Snapshot) : List (V3 Int) :=
  s.image?.getD (List.replicate s.N ⟨0, 0, 0⟩)

/-- Value of the `Snapshot.molecule` getter (default zeros). -/
def Snapshot.moleculeArr (s : Snapshot) : List Int :=
  s.molecule?.getD (List.replicate s.N 0)

/-- Value of the `Snapshot.typeid` getter (default all 1). -/
def Snapshot.typeidArr (s : Snapshot) : List Int :=
  s.typeid?.getD (List.replicate s.N 1)

/-- Value of the `Snapshot.charge` getter (default zeros). -/
def Snapshot.chargeArr (s : Snapshot) : List ℚ :=
  s.charge?.getD (List.replicate s.N 0)

/-- Value of the `Snapshot.mass` getter (default all 1). -/
def Snapshot.massArr (s : Snapshot) : List ℚ :=
  s.mass?.getD (List.replicate s.N 1)

/-- `Snapshot.num_types`: declared value if set, else max typeid if populated,
else 1. -/
def Snapshot.numTypes (s : Snapshot) : Int :=
  match s.numTypes? with
  | some v => v
  | none => if s.hasTypeid then amax s.typeidArr else 1

/-- The condition under which the `Snapshot.num_types` getter raises: no
declared count and a populated but empty `typeid` array, so
`numpy.amax(self.typeid)` raises `ValueError` (`snapshot.py` line 604).
`DataFile.create` evaluates the getter, so it fails there. -/
def numTypesRaisesB (s : Snapshot) : Bool :=
  s.numTypes?.isNone && s.hasTypeid && s.typeidArr.isEmpty

/-- The `Snapshot.id` property getter: materializes the default array on first
access (so `has_id()` is true afterwards) and returns it. -/
def Snapshot.readId (s : Snapshot) : List Int × Snapshot :=
  (s.idArr, { s with id? := some s.idArr })

/-- The `Snapshot.position` property getter (materializing). -/
def Snapshot.readPosition (s : Snapshot) : List (V3 ℚ) × Snapshot :=
  (s.positionArr, { s with position? := some s.positionArr })

/-- The `Snapshot.velocity` property getter (materializing). -/
def Snapshot.readVelocity (s : Snapshot) : List (V3 ℚ) × Snapshot :=
  (s.velocityArr, { s with velocity? := some s.velocityArr })

/-- The `Snapshot.image` property getter (materializing). -/
def Snapshot.readImage (s : Snapshot) : List (V3 Int) × Snapshot :=
  (s.imageArr, { s with image? := some s.imageArr })

/-- The `Snapshot.molecule` property getter (materializing). -/
def Snapshot.readMolecule (s : Snapshot) : List Int × Snapshot :=
  (s.moleculeArr, { s with molecule? := some s.moleculeArr })

/-- The `Snapshot.typeid` property getter (materializing). -/
def Snapshot.readTypeid (s : Snapshot) : List Int × Snapshot :=
  (s.typeidArr, { s with typeid? := some s.typeidArr })

/-- The `Snapshot.charge` property getter (materializing). -/
def Snapshot.readCharge (s : Snapshot) : List ℚ × Snapshot :=
  (s.chargeArr, { s with charge? := some s.chargeArr })

/-- The `Snapshot.mass` property getter (materializing). -/
def Snapshot.readMass (s : Snapshot) : List ℚ × Snapshot :=
  (s.massArr, { s with mass? := some s.massArr })

/-- The `Snapshot.id` setter: `None` clears; an array must have shape `(N,)`
(else `TypeError`), and is copied into the (possibly fresh) backing array. -/
def Snapshot.setId (s : Snapshot) (v? : Option (List Int)) :
    Except Err Snapshot :=
  match v? with
  | none => .ok { s with id? := none }
  | some v =>
      if v.length = s.N then .ok { s with id? := some v }
      else .error .typeError

/-- The `Snapshot.position` setter (shape `(N, 3)` enforced by the type). -/
def Snapshot.setPosition (s : Snapshot) (v? : Option (List (V3 ℚ))) :
    Except Err Snapshot :=
  match v? with
  | none => .ok { s with position? := none }
  | some v =>
      if v.length = s.N then .ok { s with position? := some v }
      else .error .typeError

/-- The `Snapshot.velocity` setter. -/
def Snapshot.setVelocity (s : Snapshot) (v? : Option (List (V3 ℚ))) :
    Except Err Snapshot :=
  match v? with
  | none => .ok { s with velocity? := none }
  | some v =>
      if v.length = s.N then .ok { s with velocity? := some v }
      else .error .typeError

/-- The `Snapshot.image` setter. -/
def Snapshot.setImage (s : Snapshot) (v? : Option (List (V3 Int))) :
    Except Err Snapshot :=
  match v? with
  | none => .ok { s with image? := none }
  | some v =>
      if v.length = s.N then .ok { s with image? := some v }
      else .error .typeError

/-- The `Snapshot.molecule` setter. -/
def Snapshot.setMolecule (s : Snapshot) (v? : Option (List Int)) :
    Except Err Snapshot :=
  match v? with
  | none => .ok { s with molecule? := none }
  | some v =>
      if v.length = s.N then .ok { s with molecule? := some v }
      else .error .typeError

/-- The `Snapshot.typeid` setter. -/
def Snapshot.setTypeid (s : Snapshot) (v? : Option (List Int)) :
    Except Err Snapshot :=
  match v? with
  | none => .ok { s with typeid? := none }
  | some v =>
      if v.length = s.N then .ok { s with typeid? := some v }
      else .error .typeError

/-- The `Snapshot.charge` setter. -/
def Snapshot.setCharge (s : Snapshot) (v? : Option (List ℚ)) :
    Except Err Snapshot :=
  match v? with
  | none => .ok { s with charge? := none }
  | some v =>
      if v.length = s.N then .ok { s with charge? := some v }
      else .error .typeError

/-- The `Snapshot.mass` setter. -/
def Snapshot.setMass (s : Snapshot) (v? : Option (List ℚ)) :
    Except Err Snapshot :=
  match v? with
  | none => .ok { s with mass? := none }
  | some v =>
      if v.length = s.N then .ok { s with mass? := some v }
      else .error .typeError

/-- The `Topology.id` setter. -/
def Topology.setId (t : Topology) (v? : Option (List Int)) :
    Except Err Topology :=
  match v? with
  | none => .ok { t with id? := none }
  | some v =>
      if v.length = t.N then .ok { t with id? := some v }
      else .error .typeError

/-- The `Topology.typeid` setter. -/
def Topology.setTypeid (t : Topology) (v? : Option (List Int)) :
    Except Err Topology :=
  match v? with
  | none => .ok { t with typeid? := none }
  | some v =>
      if v.length = t.N then .ok { t with typeid? := some v }
      else .error .typeError

/-- The `Topology.members` setter: shape must be `(N, num_members)`. -/
def Topology.setMembers (t : Topology) (v? : Option (List (List Int))) :
    Except Err Topology :=
  match v? with
  | none => .ok { t with members? := none }
  | some v =>
      if v.length = t.N ∧ v.all (fun r => r.length = t.numMembers) then
        .ok { t with members? := some v }
      else .error .typeError

/-- A unit box used for concrete instantiations. -/
def unitBox : Box := ⟨⟨0, 0, 0⟩, ⟨1, 1, 1⟩, none⟩

/-- C4 counterexample -/
theorem lazy_default_read_flips_has :
    (mkSnapshot 1 unitBox none none).hasId = false ∧
    ((mkSnapshot 1 unitBox none none).readId).2.hasId = true := by
  constructor <;> rfl

/-- C4 amended -/
theorem lazy_defaults_amended (n : Nat) (b : Box) (st : Option Int)
    (nt : Option Int) :
    (mkSnapshot n b st nt).idArr = defaultIds n ∧
    (mkSnapshot n b st nt).positionArr = List.replicate n ⟨0, 0, 0⟩ ∧
    (mkSnapshot n b st nt).velocityArr = List.replicate n ⟨0, 0, 0⟩ ∧
    (mkSnapshot n b st nt).imageArr = List.replicate n ⟨0, 0, 0⟩ ∧
    (mkSnapshot n b st nt).moleculeArr = List.replicate n 0 ∧
    (mkSnapshot n b st nt).typeidArr = List.replicate n 1 ∧
    (mkSnapshot n b st nt).chargeArr = List.replicate n 0 ∧
    (mkSnapshot n b st nt).massArr = List.replicate n 1 ∧
    (mkSnapshot n b st nt).hasId = false ∧
    (mkSnapshot n b st nt).hasPosition = false ∧
    (mkSnapshot n b st nt).hasVelocity = false ∧
    (mkSnapshot n b st nt).hasImage = false ∧
    (mkSnapshot n b st nt).hasMolecule = false ∧
    (mkSnapshot n b st nt).hasTypeid = false ∧
    (mkSnapshot n b st nt).hasCharge = false ∧
    (mkSnapshot n b st nt).hasMass = false ∧
    ((mkSnapshot n b st nt).readId).2.hasId = true ∧
    ((mkSnapshot n b st nt).readPosition).2.hasPosition = true ∧
    ((mkSnapshot n b st nt).readVelocity).2.hasVelocity = true ∧
    ((mkSnapshot n b st nt).readImage).2.hasImage = true ∧
    ((mkSnapshot n b st nt).readMolecule).2.hasMolecule = true ∧
    ((mkSnapshot n b st nt).readTypeid).2.hasTypeid = true ∧
    ((mkSnapshot n b st nt).readCharge).2.hasCharge = true ∧
    ((mkSnapshot n b st nt).readMass).2.hasMass = true := by
  refine ⟨rfl, rfl, rfl, rfl, rfl, rfl, rfl, rfl, rfl, rfl, rfl, rfl, rfl,
    rfl, rfl, rfl, rfl, rfl, rfl, rfl, rfl, rfl, rfl, rfl⟩

/-- C9 -/
theorem assign_none_clears (s : Snapshot) (t : Topology) :
    (∃ s2, s.setId none = .ok s2 ∧ s2.hasId = false ∧
      s2.idArr = defaultIds s.N) ∧
    (∃ s2, s.setPosition none = .ok s2 ∧ s2.hasPosition = false ∧
      s2.positionArr = List.replicate s.N ⟨0, 0, 0⟩) ∧
    (∃ s2, s.setVelocity none = .ok s2 ∧ s2.hasVelocity = false ∧
      s2.velocityArr = List.replicate s.N ⟨0, 0, 0⟩) ∧
    (∃ s2, s.setImage none = .ok s2 ∧ s2.hasImage = false ∧
      s2.imageArr = List.replicate s.N ⟨0, 0, 0⟩) ∧
    (∃ s2, s.setMolecule none = .ok s2 ∧ s2.hasMolecule = false ∧
      s2.moleculeArr = List.replicate s.N 0) ∧
    (∃ s2, s.setTypeid none = .ok s2 ∧ s2.hasTypeid = false ∧
      s2.typeidArr = List.replicate s.N 1) ∧
    (∃ s2, s.setCharge none = .ok s2 ∧ s2.hasCharge = false ∧
      s2.chargeArr = List.replicate s.N 0) ∧
    (∃ s2, s.setMass none = .ok s2 ∧ s2.hasMass = false ∧
      s2.massArr = List.replicate s.N 1) ∧
    (∃ t2, t.setId none = .ok t2 ∧ t2.hasId = false ∧
      t2.idArr = defaultIds t.N) ∧
    (∃ t2, t.setTypeid none = .ok t2 ∧ t2.hasTypeid = false ∧
      t2.typeidArr = List.replicate t.N 1) ∧
    (∃ t2, t.setMembers none = .ok t2 ∧ t2.hasMembers = false ∧
      t2.membersArr = List.replicate t.N (List.replicate t.numMembers 1)) :=
  ⟨⟨_, rfl, rfl, rfl⟩, ⟨_, rfl, rfl, rfl⟩, ⟨_, rfl, rfl, rfl⟩,
   ⟨_, rfl, rfl, rfl⟩, ⟨_, rfl, rfl, rfl⟩, ⟨_, rfl, rfl, rfl⟩,
   ⟨_, rfl, rfl, rfl⟩, ⟨_, rfl, rfl, rfl⟩, ⟨_, rfl, rfl, rfl⟩,
   ⟨_, rfl, rfl, rfl⟩, ⟨_, rfl, rfl, rfl⟩⟩

/-! ### `reorder` (`snapshot.py`, `topology.py`) -/

/-- The consecutive-increment check
`numpy.all(sorted_order[1:] == sorted_order[:-1] + 1)`. -/
def consecCheck (l : List Nat) : Bool :=
  (l.tail.zip l).all (fun p => p.1 == p.2 + 1)

/-- The order validation run by `reorder` when `check_order` and `N > 1`:
`numpy.sort` the order (modelled by insertion sort, which computes the same
sorted array), then require first element 0, last element `N - 1`, and unit
increments.  Indexing `sorted_order[0]` of an empty array is an `IndexError`;
a failed comparison is the `ValueError` the source raises. -/
def checkOrderErr (n : Nat) (order : List Nat) : Option Err :=
  match List.insertionSort (· ≤ ·) order with
  | [] => some .indexError
  | s0 :: rest =>
      if s0 ≠ 0 ∨ (s0 :: rest).getLastD 0 ≠ n - 1 ∨ ¬ consecCheck (s0 :: rest) then
        some .valueError
      else
        none

/-- numpy fancy indexing `arr[order]`: out-of-range entries raise
`IndexError`, otherwise the result holds `arr[order[k]]` at position `k`. -/
def takeIdx {α : Type} [Inhabited α] (l : List α) (order : List Nat) :
    Except Err (List α) :=
  if order.all (fun k => k < l.length) then
    .ok (order.map (fun k => l.getD k default))
  else
    .error .indexError

/-- `self._field = self._field[order]` applied to a lazily-initialized field:
an unpopulated field is left untouched. -/
def permField {α : Type} [Inhabited α] (o : Option (List α)) (order : List Nat) :
    Except Err (Option (List α)) :=
  match o with
  | none => .ok none
  | some l => (takeIdx l order).map some

instance {α : Type} [Inhabited α] : Inhabited (V3 α) := ⟨⟨default, default, default⟩⟩

/-- `Snapshot.reorder(order, check_order)`: validate the order when requested
and `N > 1`, then permute every populated per-particle array in lockstep. -/
def Snapshot.reorder (s : Snapshot) (order : List Nat) (check : Bool) :
    Except Err Snapshot := do
  if check ∧ s.N > 1 then
    match checkOrderErr s.N order with
    | some e => throw e
    | none => pure ()
  let i1 ← permField s.id? order
  let p1 ← permField s.position? order
  let v1 ← permField s.velocity? order
  let g1 ← permField s.image? order
  let m1 ← permField s.molecule? order
  let t1 ← permField s.typeid? order
  let c1 ← permField s.charge? order
  let w1 ← permField s.mass? order
  return { s with id? := i1, position? := p1, velocity? := v1, image? := g1,
                  molecule? := m1, typeid? := t1, charge? := c1, mass? := w1 }

/-- `Topology.reorder(order, check_order)`. -/
def Topology.reorder (t : Topology) (order : List Nat) (check : Bool) :
    Except Err Topology := do
  if check ∧ t.N > 1 then
    match checkOrderErr t.N order with
    | some e => throw e
    | none => pure ()
  let i1 ← permField t.id? order
  let y1 ← permField t.typeid? order
  let m1 ← permField t.members? order
  return { t with id? := i1, typeid? := y1, members? := m1 }

/-- Length well-formedness of one lazily-initialized array. -/
def optLenB {α : Type} (o : Option (List α)) (n : Nat) : Bool :=
  match o with
  | none => true
  | some l => l.length == n

/-- Every populated per-particle array of the snapshot has first dimension `N`
(guaranteed by the setters). -/
def Snapshot.wfLenB (s : Snapshot) : Bool :=
  optLenB s.id? s.N && optLenB s.position? s.N && optLenB s.velocity? s.N &&
  optLenB s.image? s.N && optLenB s.molecule? s.N && optLenB s.typeid? s.N &&
  optLenB s.charge? s.N && optLenB s.mass? s.N

/-- Every populated array of the topology record has first dimension `N`. -/
def Topology.wfLenB (t : Topology) : Bool :=
  optLenB t.id? t.N && optLenB t.typeid? t.N && optLenB t.members? t.N

theorem consec_cons (a b : Nat) (r : List Nat) :
    consecCheck (a :: b :: r) = ((b == a + 1) && consecCheck (b :: r)) := rfl

theorem consec_eq_range' (l : List Nat) (h : consecCheck l = true) :
    l = List.range' (l.headD 0) l.length := by
  induction l with
  | nil => rfl
  | cons a r ih =>
      cases r with
      | nil => rfl
      | cons b r2 =>
          rw [consec_cons, Bool.and_eq_true, beq_iff_eq] at h
          obtain ⟨hb, h2⟩ := h
          have ih2 := ih h2
          simp only [List.headD_cons, List.length_cons] at ih2 ⊢
          rw [List.range'_succ]
          subst hb
          rw [← ih2]

theorem consec_range' (s n : Nat) : consecCheck (List.range' s n) = true := by
  induction n generalizing s with
  | zero => rfl
  | succ m ih =>
      cases m with
      | zero => rfl
      | succ k =>
          rw [List.range'_succ, List.range'_succ, consec_cons,
            Bool.and_eq_true, beq_iff_eq]
          refine ⟨rfl, ?_⟩
          have := ih (s + 1)
          rwa [List.range'_succ] at this

theorem getLastD_range' (s n : Nat) (hn : 0 < n) :
    (List.range' s n).getLastD 0 = s + n - 1 := by
  rw [List.getLastD_eq_getLast?, List.getLast?_eq_getElem?, List.length_range',
    List.getElem?_range' s 1 (by omega)]
  simp
  omega

/-- The order validation of `reorder` passes exactly on permutations of
`0..N-1` (for `N ≥ 1`, which holds whenever the check runs). -/
theorem checkOrderErr_none_iff (n : Nat) (hn : 1 ≤ n) (order : List Nat) :
    checkOrderErr n order = none ↔ order.Perm (List.range n) := by
  constructor
  · intro h
    rw [checkOrderErr] at h
    split at h
    · exact absurd h (by simp)
    · rename_i s0 rest hs
      split at h
      · exact absurd h (by simp)
      · rename_i hcond
        push_neg at hcond
        obtain ⟨h0, hlast, hcons⟩ := hcond
        subst h0
        have hrange := consec_eq_range' (0 :: rest) hcons
        simp only [List.headD_cons, List.length_cons] at hrange
        have hlast2 : rest.length + 1 = n := by
          rw [hrange, getLastD_range' 0 _ (by omega)] at hlast
          omega
        have hsorted : List.insertionSort (· ≤ ·) order = List.range n := by
          rw [hs, hrange, hlast2, List.range_eq_range']
        exact (List.perm_insertionSort (· ≤ ·) order).symm.trans
          (hsorted ▸ List.Perm.refl _)
  · intro h
    have hsorted : List.insertionSort (· ≤ ·) order = List.range n := by
      haveI : IsAntisymm ℕ (fun x1 x2 : ℕ => x1 ≤ x2) :=
        ⟨fun _ _ h1 h2 => Nat.le_antisymm h1 h2⟩
      exact List.eq_of_perm_of_sorted (r := fun x1 x2 => x1 ≤ x2)
        ((List.perm_insertionSort (· ≤ ·) order).trans h)
        (List.sorted_insertionSort _ order)
        ((List.pairwise_lt_range n).imp le_of_lt)
    obtain ⟨m, rfl⟩ : ∃ m, n = m + 1 := ⟨n - 1, by omega⟩
    rw [checkOrderErr, hsorted, List.range_eq_range', List.range'_succ]
    have hlast : ((0 : Nat) :: List.range' 1 m).getLastD 0 = m + 1 - 1 := by
      have := getLastD_range' 0 (m + 1) (by omega)
      rw [List.range'_succ] at this
      simpa using this
    have hcons : consecCheck ((0 : Nat) :: List.range' 1 m) = true := by
      have := consec_range' 0 (m + 1)
      rw [List.range'_succ] at this
      simpa using this
    simp [hcons]
    rw [← List.getLastD_eq_getLast?]
    simpa using hlast

theorem permField_ok {α : Type} [Inhabited α] (o : Option (List α)) (n : Nat)
    (order : List Nat) (hlen : optLenB o n = true) (hall : ∀ k ∈ order, k < n) :
    permField o order =
      .ok (o.map (fun l => order.map (fun k => l.getD k default))) := by
  cases o with
  | none => rfl
  | some l =>
      simp only [optLenB, beq_iff_eq] at hlen
      simp only [permField, takeIdx]
      rw [if_pos]
      · rfl
      · simp only [List.all_eq_true, decide_eq_true_eq]
        intro k hk
        rw [hlen]
        exact hall k hk

/-- C7 amended -/
theorem reorder_check_amended (s : Snapshot) (t : Topology) (order : List Nat) :
    (1 < s.N → s.wfLenB = true →
      ((¬ order.Perm (List.range s.N)) → ∃ e, s.reorder order true = .error e) ∧
      (order.Perm (List.range s.N) →
        ∃ s2, s.reorder order true = .ok s2 ∧ s2.N = s.N ∧
          (∀ l, s.id? = some l →
            s2.id? = some (order.map (fun k => l.getD k default))) ∧
          (∀ l, s.position? = some l →
            s2.position? = some (order.map (fun k => l.getD k default))) ∧
          (∀ l, s.velocity? = some l →
            s2.velocity? = some (order.map (fun k => l.getD k default))) ∧
          (∀ l, s.image? = some l →
            s2.image? = some (order.map (fun k => l.getD k default))) ∧
          (∀ l, s.molecule? = some l →
            s2.molecule? = some (order.map (fun k => l.getD k default))) ∧
          (∀ l, s.typeid? = some l →
            s2.typeid? = some (order.map (fun k => l.getD k default))) ∧
          (∀ l, s.charge? = some l →
            s2.charge? = some (order.map (fun k => l.getD k default))) ∧
          (∀ l, s.mass? = some l →
            s2.mass? = some (order.map (fun k => l.getD k default))))) ∧
    (1 < t.N → t.wfLenB = true →
      ((¬ order.Perm (List.range t.N)) → ∃ e, t.reorder order true = .error e) ∧
      (order.Perm (List.range t.N) →
        ∃ t2, t.reorder order true = .ok t2 ∧ t2.N = t.N ∧
          (∀ l, t.id? = some l →
            t2.id? = some (order.map (fun k => l.getD k default))) ∧
          (∀ l, t.typeid? = some l →
            t2.typeid? = some (order.map (fun k => l.getD k default))) ∧
          (∀ l, t.members? = some l →
            t2.members? = some (order.map (fun k => l.getD k default))))) := by
  constructor
  · intro hN hwf
    rw [Snapshot.wfLenB, Bool.and_eq_true, Bool.and_eq_true, Bool.and_eq_true,
      Bool.and_eq_true, Bool.and_eq_true, Bool.and_eq_true, Bool.and_eq_true] at hwf
    obtain ⟨⟨⟨⟨⟨⟨⟨w1, w2⟩, w3⟩, w4⟩, w5⟩, w6⟩, w7⟩, w8⟩ := hwf
    constructor
    · intro hperm
      have hchk : checkOrderErr s.N order ≠ none := fun hc =>
        hperm ((checkOrderErr_none_iff s.N (by omega) order).mp hc)
      rcases hc : checkOrderErr s.N order with - | e
      · exact absurd hc hchk
      · refine ⟨e, ?_⟩
        simp [Snapshot.reorder, hN, hc, throw, throwThe, MonadExceptOf.throw,
          bind, Except.bind]
    · intro hperm
      have hchk : checkOrderErr s.N order = none :=
        (checkOrderErr_none_iff s.N (by omega) order).mpr hperm
      have hall : ∀ k ∈ order, k < s.N := fun k hk => by
        have := hperm.mem_iff.mp hk
        simpa [List.mem_range] using this
      have hre : s.reorder order true = .ok
          { s with
            id? := s.id?.map (fun l => order.map (fun k => l.getD k default)),
            position? := s.position?.map (fun l => order.map (fun k => l.getD k default)),
            velocity? := s.velocity?.map (fun l => order.map (fun k => l.getD k default)),
            image? := s.image?.map (fun l => order.map (fun k => l.getD k default)),
            molecule? := s.molecule?.map (fun l => order.map (fun k => l.getD k default)),
            typeid? := s.typeid?.map (fun l => order.map (fun k => l.getD k default)),
            charge? := s.charge?.map (fun l => order.map (fun k => l.getD k default)),
            mass? := s.mass?.map (fun l => order.map (fun k => l.getD k default)) } := by
        simp [Snapshot.reorder, hN, hchk, bind, Except.bind, pure, Except.pure,
          permField_ok s.id? s.N order w1 hall,
          permField_ok s.position? s.N order w2 hall,
          permField_ok s.velocity? s.N order w3 hall,
          permField_ok s.image? s.N order w4 hall,
          permField_ok s.molecule? s.N order w5 hall,
          permField_ok s.typeid? s.N order w6 hall,
          permField_ok s.charge? s.N order w7 hall,
          permField_ok s.mass? s.N order w8 hall]
      refine ⟨_, hre, rfl, ?_, ?_, ?_, ?_, ?_, ?_, ?_, ?_⟩
      all_goals intro l hl
      all_goals simp [hl]
  · intro hN hwf
    rw [Topology.wfLenB, Bool.and_eq_true, Bool.and_eq_true] at hwf
    obtain ⟨⟨w1, w2⟩, w3⟩ := hwf
    constructor
    · intro hperm
      have hchk : checkOrderErr t.N order ≠ none := fun hc =>
        hperm ((checkOrderErr_none_iff t.N (by omega) order).mp hc)
      rcases hc : checkOrderErr t.N order with - | e
      · exact absurd hc hchk
      · refine ⟨e, ?_⟩
        simp [Topology.reorder, hN, hc, throw, throwThe, MonadExceptOf.throw,
          bind, Except.bind]
    · intro hperm
      have hchk : checkOrderErr t.N order = none :=
        (checkOrderErr_none_iff t.N (by omega) order).mpr hperm
      have hall : ∀ k ∈ order, k < t.N := fun k hk => by
        have := hperm.mem_iff.mp hk
        simpa [List.mem_range] using this
      have hre : t.reorder order true = .ok
          { t with
            id? := t.id?.map (fun l => order.map (fun k => l.getD k default)),
            typeid? := t.typeid?.map (fun l => order.map (fun k => l.getD k default)),
            members? := t.members?.map (fun l => order.map (fun k => l.getD k default)) } := by
        simp [Topology.reorder, hN, hchk, bind, Except.bind, pure, Except.pure,
          permField_ok t.id? t.N order w1 hall,
          permField_ok t.typeid? t.N order w2 hall,
          permField_ok t.members? t.N order w3 hall]
      refine ⟨_, hre, rfl, ?_, ?_, ?_⟩
      all_goals intro l hl
      all_goals simp [hl]

/-- C7 counterexample -/
theorem reorder_smallN_no_raise :
    (mkSnapshot 1 unitBox none none).reorder [5] true =
      .ok (mkSnapshot 1 unitBox none none) ∧
    ¬ ([5] : List Nat).Perm (List.range 1) := by
  constructor
  · rfl
  · decide

/-- Concrete snapshot (ids populated) for the C7 witness. -/
def reorderWitSnap : Snapshot :=
  { mkSnapshot 2 unitBox none none with id? := some [10, 20] }

/-- Concrete bonds record (typeids populated) for the C7 witness. -/
def reorderWitTopo : Topology :=
  { mkBonds 2 none with typeid? := some [4, 7] }

/-- C7 witness -/
theorem reorder_check_amended_witness :
    (∃ s2, reorderWitSnap.reorder [1, 0] true = .ok s2 ∧ s2.id? = some [20, 10]) ∧
    (∃ t2, reorderWitTopo.reorder [1, 0] true = .ok t2 ∧ t2.typeid? = some [7, 4]) ∧
    (∃ e, reorderWitSnap.reorder [0, 0] true = .error e) := by
  obtain ⟨hp, ht⟩ := reorder_check_amended reorderWitSnap reorderWitTopo [1, 0]
  obtain ⟨s2, hs2, -, hid, -⟩ := (hp (by decide) (by decide)).2 (by decide)
  obtain ⟨t2, ht2, -, -, hty, -⟩ :=
    ((reorder_check_amended reorderWitSnap reorderWitTopo [1, 0]).2
      (by decide) (by decide)).2 (by decide)
  obtain ⟨e, he⟩ :=
    ((reorder_check_amended reorderWitSnap reorderWitTopo [0, 0]).1
      (by decide) (by decide)).1 (by decide)
  refine ⟨⟨s2, hs2, ?_⟩, ⟨t2, ht2, ?_⟩, ⟨e, he⟩⟩
  · rw [hid [10, 20] rfl]
    rfl
  · rw [hty [4, 7] rfl]
    rfl

/-! ### `DataFile.create` (`data.py`) -/

/-- LAMMPS atom styles supported by the codec (an unknown style string raises
in the source; it is unrepresentable here). -/
inductive Style where
  | atomic
  | charge
  | molecular
  | full
  deriving DecidableEq, Repr

/-- One whitespace-separated token of a data-file body row, written with an
integer (`{:d}`) or float format.  Python's `int()` parses only integer
tokens; `float()` parses both. -/
inductive Tok where
  | i (z : Int)
  | r (q : ℚ)
  deriving DecidableEq, Repr

/-- `snapshot.id[i] if snapshot.has_id() else i + 1`. -/
def Snapshot.idW (s : Snapshot) (i : Nat) : Int :=
  if s.hasId then s.idArr.getD i 0 else (i : Int) + 1

/-- `snapshot.molecule[i] if snapshot.has_molecule() else 0`. -/
def Snapshot.molW (s : Snapshot) (i : Nat) : Int :=
  if s.hasMolecule then s.moleculeArr.getD i 0 else 0

/-- `snapshot.charge[i] if snapshot.has_charge() else 0.0`. -/
def Snapshot.chargeW (s : Snapshot) (i : Nat) : ℚ :=
  if s.hasCharge then s.chargeArr.getD i 0 else 0

/-- `snapshot.typeid[i]` (through the getter). -/
def Snapshot.typeidW (s : Snapshot) (i : Nat) : Int :=
  s.typeidArr.getD i 1

/-- `snapshot.position[i]` as written (through the getter). -/
def Snapshot.posW (s : Snapshot) (i : Nat) : V3 ℚ :=
  s.positionArr.getD i default

/-- `snapshot.velocity[i]` as written. -/
def Snapshot.velW (s : Snapshot) (i : Nat) : V3 ℚ :=
  s.velocityArr.getD i default

/-- `snapshot.image[i]` as written. -/
def Snapshot.imgW (s : Snapshot) (i : Nat) : V3 Int :=
  s.imageArr.getD i default

/-- One `Atoms` section row written by `DataFile.create` for particle `i`:
the style-dependent leading columns, the position triple, and the image
triple whenever images are present. -/
def mkAtomRow (s : Snapshot) (st : Style) (i : Nat) : List Tok :=
  let base : List Tok :=
    match st with
    | .full =>
        [.i (s.idW i), .i (s.molW i), .i (s.typeidW i), .r (s.chargeW i),
         .r (s.posW i).x, .r (s.posW i).y, .r (s.posW i).z]
    | .charge =>
        [.i (s.idW i), .i (s.typeidW i), .r (s.chargeW i),
         .r (s.posW i).x, .r (s.posW i).y, .r (s.posW i).z]
    | .molecular =>
        [.i (s.idW i), .i (s.molW i), .i (s.typeidW i),
         .r (s.posW i).x, .r (s.posW i).y, .r (s.posW i).z]
    | .atomic =>
        [.i (s.idW i), .i (s.typeidW i),
         .r (s.posW i).x, .r (s.posW i).y, .r (s.posW i).z]
  base ++
    (if s.hasImage then [.i (s.imgW i).x, .i (s.imgW i).y, .i (s.imgW i).z]
     else [])

/-- One `Velocities` section row for particle `i`. -/
def mkVelRow (s : Snapshot) (i : Nat) : List Tok :=
  [.i (s.idW i), .r (s.velW i).x, .r (s.velW i).y, .r (s.velW i).z]

/-- `snapshot.mass[snapshot.typeid == t]`: the masses of the particles of
type `t`, in storage order. -/
def grpMass (typeid : List Int) (mass : List ℚ) (t : Int) : List ℚ :=
  ((typeid.zip mass).filter (fun p => p.1 == t)).map (fun p => p.2)

/-- The per-type mass derivation loop of `DataFile.create`
(`for i in range(num_types)`), over the list of remaining 0-based type
indices: an empty type group makes `mi[0]` raise `IndexError`; an
inconsistent group raises `ValueError`, as does a nonpositive first mass. -/
def deriveMassesList (typeid : List Int) (mass : List ℚ) :
    List Nat → Except Err (List ℚ)
  | [] => .ok []
  | t :: ts =>
      match grpMass typeid mass ((t : Int) + 1) with
      | [] => .error .indexError
      | m0 :: rest =>
          if (m0 :: rest).all (fun x => x == m0) then
            if m0 ≤ 0 then .error .valueError
            else (deriveMassesList typeid mass ts).map (fun l => m0 :: l)
          else .error .valueError

/-- The mass-by-type extraction at the top of `DataFile.create`. -/
def deriveMasses (s : Snapshot) : Except Err (List ℚ) :=
  deriveMassesList s.typeidArr s.massArr (List.range s.numTypes.toNat)

/-- Any topology kind present (used for style inference). -/
def Snapshot.hasTopology (s : Snapshot) : Bool :=
  s.hasBonds || s.hasAngles || s.hasDihedrals || s.hasImpropers

/-- The atom-style inference of `DataFile.create` when no style is passed. -/
def inferStyle (s : Snapshot) : Style :=
  if s.hasMolecule || s.hasTopology then
    if s.hasCharge then .full else .molecular
  else
    if s.hasCharge then .charge else .atomic

/-- The header values of a data file, mirroring the parse state of
`DataFile.read` (each recognized header line fills one slot). -/
structure Header where
  natoms? : Option Nat := none
  nbonds? : Option Nat := none
  nangles? : Option Nat := none
  ndihedrals? : Option Nat := none
  nimpropers? : Option Nat := none
  numTypes? : Option Int := none
  numBondTypes? : Option Int := none
  numAngleTypes? : Option Int := none
  numDihedralTypes? : Option Int := none
  numImproperTypes? : Option Int := none
  xBounds? : Option (ℚ × ℚ) := none
  yBounds? : Option (ℚ × ℚ) := none
  zBounds? : Option (ℚ × ℚ) := none
  tilt? : Option (V3 ℚ) := none
  deriving DecidableEq, Repr

/-- A LAMMPS data file at token level: the parsed header and the body
sections in the order `DataFile.create` writes them (`Atoms`, `Velocities`,
`Masses`, `Bonds`, `Angles`, `Dihedrals`, `Impropers`); an absent section is
`none`.  `atomsStyle?` is the `Atoms # <style>` section comment. -/
structure DataFileRep where
  header : Header
  atomsStyle? : Option Style
  atomRows : List (List Tok)
  velocityRows? : Option (List (List Tok))
  massRows? : Option (List (List Tok))
  bondRows? : Option (List (List Tok))
  angleRows? : Option (List (List Tok))
  dihedralRows? : Option (List (List Tok))
  improperRows? : Option (List (List Tok))
  deriving DecidableEq, Repr

/-- One topology section row: `<id> <typeid> <member1> ... <memberK>`. -/
def mkTopoRows (t : Topology) : List (List Tok) :=
  (List.range t.N).map (fun i =>
    [Tok.i (t.idArr.getD i 0), Tok.i (t.typeidArr.getD i 0)] ++
      (t.membersArr.getD i []).map Tok.i)

/-- `DataFile.create(filename, snapshot, atom_style)`: derive the per-type
masses first (all validation errors abort before any file content is
produced), determine the style (inferring it when not supplied), then emit
the header and the body sections.  `snapshot.num_types` is evaluated when
sizing the mass array and again at the `atom types` header line; both
evaluations raise `ValueError` under `numTypesRaisesB`. -/
def DataFile.create (s : Snapshot) (atomStyle? : Option Style) :
    Except Err DataFileRep := do
  let masses? : Option (List ℚ) ←
    if s.hasMass then
      if numTypesRaisesB s then .error Err.valueError
      else (deriveMasses s).map some
    else pure none
  let style :=
    match atomStyle? with
    | none => inferStyle s
    | some st => st
  if numTypesRaisesB s then .error Err.valueError
  else pure {
    header := {
      natoms? := some s.N
      nbonds? := if s.hasBonds then s.bonds.map (fun t => t.N) else none
      nangles? := if s.hasAngles then s.angles.map (fun t => t.N) else none
      ndihedrals? := if s.hasDihedrals then s.dihedrals.map (fun t => t.N) else none
      nimpropers? := if s.hasImpropers then s.impropers.map (fun t => t.N) else none
      numTypes? := some s.numTypes
      numBondTypes? := if s.hasBonds then s.bonds.map (fun t => t.numTypes) else none
      numAngleTypes? := if s.hasAngles then s.angles.map (fun t => t.numTypes) else none
      numDihedralTypes? :=
        if s.hasDihedrals then s.dihedrals.map (fun t => t.numTypes) else none
      numImproperTypes? :=
        if s.hasImpropers then s.impropers.map (fun t => t.numTypes) else none
      xBounds? := some (s.box.low.x, s.box.high.x)
      yBounds? := some (s.box.low.y, s.box.high.y)
      zBounds? := some (s.box.low.z, s.box.high.z)
      tilt? := s.box.tilt }
    atomsStyle? := some style
    atomRows := (List.range s.N).map (mkAtomRow s style)
    velocityRows? :=
      if s.hasVelocity then some ((List.range s.N).map (mkVelRow s)) else none
    massRows? := masses?.map (fun ms =>
      ms.enum.map (fun p => [Tok.i ((p.1 : Int) + 1), Tok.r p.2]))
    bondRows? := if s.hasBonds then s.bonds.map mkTopoRows else none
    angleRows? := if s.hasAngles then s.angles.map mkTopoRows else none
    dihedralRows? := if s.hasDihedrals then s.dihedrals.map mkTopoRows else none
    improperRows? := if s.hasImpropers then s.impropers.map mkTopoRows else none }

/-- C5 -/
theorem infer_style_on_create (s : Snapshot) (f : DataFileRep)
    (h : DataFile.create s none = .ok f) :
    f.atomsStyle? = some
      (if s.hasMolecule || (s.hasBonds || s.hasAngles || s.hasDihedrals || s.hasImpropers) then
        if s.hasCharge then Style.full else Style.molecular
      else
        if s.hasCharge then Style.charge else Style.atomic) := by
  rw [DataFile.create] at h
  by_cases hg : numTypesRaisesB s = true
  · rw [hg] at h
    cases hm : s.hasMass with
    | false =>
        rw [hm] at h
        simp [bind, Except.bind, pure, Except.pure] at h
    | true =>
        rw [hm] at h
        simp [bind, Except.bind, pure, Except.pure] at h
  · have hg2 : numTypesRaisesB s = false := by simpa using hg
    rw [hg2] at h
    cases hm : s.hasMass with
    | false =>
        rw [hm] at h
        simp only [Bool.false_eq_true, if_false, pure, Except.pure, bind,
          Except.bind] at h
        cases h
        rfl
    | true =>
        rw [hm] at h
        simp only [if_true, Bool.false_eq_true, if_false, bind,
          Except.bind] at h
        cases hd : deriveMasses s with
        | error e =>
            rw [hd] at h
            simp [Except.map] at h
        | ok ms =>
            rw [hd] at h
            simp only [Except.map, pure, Except.pure, Bool.false_eq_true,
              if_false] at h
            cases h
            rfl

/-- Concrete snapshot (molecule and charge populated) for the C5 witness. -/
def styleWitSnap : Snapshot :=
  { mkSnapshot 2 unitBox none none with
    molecule? := some [1, 1], charge? := some [-1, 1] }

/-- C5 witness -/
theorem infer_style_on_create_witness :
    ∃ f, DataFile.create styleWitSnap none = .ok f ∧
      f.atomsStyle? = some Style.full := by
  rcases hc : DataFile.create styleWitSnap none with e | f
  · have hok : (DataFile.create styleWitSnap none).isOk = true := rfl
    rw [hc] at hok
    exact absurd hok (by simp [Except.isOk, Except.toBool])
  · refine ⟨f, rfl, ?_⟩
    rw [infer_style_on_create styleWitSnap f hc]
    rfl

/-- A type group that fails the mass validation: at least two different
values (so `numpy.all(mi == mi[0])` is false) or a nonpositive first value. -/
def grpBad (typeid : List Int) (mass : List ℚ) (u : Nat) : Prop :=
  grpMass typeid mass ((u : Int) + 1) ≠ [] ∧
    (¬ ((grpMass typeid mass ((u : Int) + 1)).all
        (fun x => x == (grpMass typeid mass ((u : Int) + 1)).headD 0) = true) ∨
      (grpMass typeid mass ((u : Int) + 1)).headD 0 ≤ 0)

/-- A type group that passes the mass validation. -/
def grpGood (typeid : List Int) (mass : List ℚ) (u : Nat) : Prop :=
  grpMass typeid mass ((u : Int) + 1) ≠ [] ∧
    ((grpMass typeid mass ((u : Int) + 1)).all
        (fun x => x == (grpMass typeid mass ((u : Int) + 1)).headD 0) = true) ∧
    ¬ (grpMass typeid mass ((u : Int) + 1)).headD 0 ≤ 0

instance (typeid : List Int) (mass : List ℚ) (u : Nat) :
    Decidable (grpBad typeid mass u) := by
  unfold grpBad
  infer_instance

instance (typeid : List Int) (mass : List ℚ) (u : Nat) :
    Decidable (grpGood typeid mass u) := by
  unfold grpGood
  infer_instance

theorem deriveMassesList_cons (typeid : List Int) (mass : List ℚ) (t : Nat)
    (ts : List Nat) (m0 : ℚ) (g : List ℚ)
    (ht : grpMass typeid mass ((t : Int) + 1) = m0 :: g) :
    deriveMassesList typeid mass (t :: ts) =
      if ((m0 :: g).all fun x => x == m0) = true then
        if m0 ≤ 0 then .error .valueError
        else (deriveMassesList typeid mass ts).map (fun l => m0 :: l)
      else .error .valueError := by
  rw [deriveMassesList, ht]

theorem deriveMassesList_cons_nil (typeid : List Int) (mass : List ℚ) (t : Nat)
    (ts : List Nat) (ht : grpMass typeid mass ((t : Int) + 1) = []) :
    deriveMassesList typeid mass (t :: ts) = .error .indexError := by
  rw [deriveMassesList, ht]

theorem deriveList_valueError (typeid : List Int) (mass : List ℚ)
    (ts : List Nat) (hcov : ∀ u ∈ ts, grpMass typeid mass ((u : Int) + 1) ≠ [])
    (hbad : ∃ u ∈ ts, grpBad typeid mass u) :
    deriveMassesList typeid mass ts = .error .valueError := by
  induction ts with
  | nil => simp at hbad
  | cons t rest ih =>
      obtain ⟨u, hu, hb⟩ := hbad
      cases ht : grpMass typeid mass ((t : Int) + 1) with
      | nil => exact absurd ht (hcov t (by simp))
      | cons m0 g =>
          rw [deriveMassesList_cons typeid mass t rest m0 g ht]
          by_cases hbt : grpBad typeid mass t
          · obtain ⟨-, hb2⟩ := hbt
            rw [ht] at hb2
            simp only [List.headD_cons] at hb2
            rcases hb2 with hall | hpos
            · rw [if_neg hall]
            · by_cases hall : (m0 :: g).all (fun x => x == m0) = true
              · rw [if_pos hall, if_pos hpos]
              · rw [if_neg hall]
          · have hu2 : u ∈ rest := by
              rcases List.mem_cons.mp hu with rfl | h2
              · exact absurd hb hbt
              · exact h2
            have hrec := ih (fun v hv => hcov v (List.mem_cons_of_mem _ hv))
              ⟨u, hu2, hb⟩
            have hgt : ((m0 :: g).all fun x => x == m0) = true ∧ ¬ m0 ≤ 0 := by
              by_contra hq
              apply hbt
              refine ⟨by rw [ht]; simp, ?_⟩
              rw [ht]
              simp only [List.headD_cons]
              tauto
            obtain ⟨hall, hpos⟩ := hgt
            rw [if_pos hall, if_neg hpos, hrec]
            rfl

theorem deriveList_indexError (typeid : List Int) (mass : List ℚ) (u0 : Nat)
    (hempty : grpMass typeid mass ((u0 : Int) + 1) = [])
    (hgood : ∀ u, u < u0 → grpGood typeid mass u) :
    ∀ a n, a ≤ u0 → u0 < a + n →
      deriveMassesList typeid mass (List.range' a n) = .error .indexError := by
  intro a n
  induction n generalizing a with
  | zero => omega
  | succ m ih =>
      intro ha hn
      rw [List.range'_succ]
      by_cases hEq : a = u0
      · subst hEq
        exact deriveMassesList_cons_nil typeid mass _ _ hempty
      · have hlt : a < u0 := by omega
        obtain ⟨hne, hall, hpos⟩ := hgood a hlt
        cases ht : grpMass typeid mass ((a : Int) + 1) with
        | nil => exact absurd ht hne
        | cons m0 g =>
            rw [ht] at hall hpos
            simp only [List.headD_cons] at hall hpos
            rw [deriveMassesList_cons typeid mass a _ m0 g ht, if_pos hall,
              if_neg hpos, ih (a + 1) (by omega) (by omega)]
            rfl

/-- Every particle typeid lies in `1..num_types`. -/
def typeidInRangeB (s : Snapshot) : Bool :=
  s.typeidArr.all (fun t => decide (1 ≤ t) && decide (t ≤ s.numTypes))

/-- Every type in `1..num_types` is carried by at least one particle. -/
def massTypesCoveredB (s : Snapshot) : Bool :=
  (List.range s.numTypes.toNat).all
    (fun u => !(grpMass s.typeidArr s.massArr ((u : Int) + 1)).isEmpty)

theorem mem_grpMass {typeid : List Int} {mass : List ℚ} {p : Int × ℚ}
    (hp : p ∈ typeid.zip mass) (t : Int) (ht : p.1 = t) :
    p.2 ∈ grpMass typeid mass t := by
  rw [grpMass]
  exact List.mem_map.mpr ⟨p, List.mem_filter.mpr ⟨hp, by simp [ht]⟩, rfl⟩

theorem not_all_eq_head_of_two_mem {g : List ℚ} {a b : ℚ} (ha : a ∈ g)
    (hb : b ∈ g) (hne : a ≠ b) :
    ¬ (g.all (fun x => x == g.headD 0) = true) := by
  intro hall
  rw [List.all_eq_true] at hall
  have h1 := hall a ha
  have h2 := hall b hb
  rw [beq_iff_eq] at h1 h2
  exact hne (h1.trans h2.symm)

/-- C3 amended -/
theorem mass_validation_amended (s : Snapshot) (atomStyle? : Option Style)
    (hmass : s.hasMass = true)
    (hcov : massTypesCoveredB s = true)
    (hrange : typeidInRangeB s = true)
    (hbad :
      (∃ p ∈ s.typeidArr.zip s.massArr, ∃ q ∈ s.typeidArr.zip s.massArr,
        p.1 = q.1 ∧ p.2 ≠ q.2) ∨
      (∃ u < s.numTypes.toNat,
        (grpMass s.typeidArr s.massArr ((u : Int) + 1)).headD 0 ≤ 0)) :
    DataFile.create s atomStyle? = .error .valueError := by
  have hcov2 : ∀ u ∈ List.range s.numTypes.toNat,
      grpMass s.typeidArr s.massArr ((u : Int) + 1) ≠ [] := by
    intro u hu
    rw [massTypesCoveredB, List.all_eq_true] at hcov
    have := hcov u hu
    simpa using this
  have hbad2 : ∃ u ∈ List.range s.numTypes.toNat,
      grpBad s.typeidArr s.massArr u := by
    rcases hbad with ⟨p, hp, q, hq, heq, hne⟩ | ⟨u, hu, hle⟩
    · have hp1 : p.1 ∈ s.typeidArr := (List.of_mem_zip hp).1
      rw [typeidInRangeB, List.all_eq_true] at hrange
      have hr := hrange p.1 hp1
      rw [Bool.and_eq_true, decide_eq_true_eq, decide_eq_true_eq] at hr
      obtain ⟨h1, h2⟩ := hr
      have hcast : (((p.1 - 1).toNat : Int) + 1) = p.1 := by omega
      have hmp : p.2 ∈ grpMass s.typeidArr s.massArr p.1 := mem_grpMass hp _ rfl
      have hmq : q.2 ∈ grpMass s.typeidArr s.massArr p.1 := mem_grpMass hq _ heq.symm
      refine ⟨(p.1 - 1).toNat, List.mem_range.mpr (by omega), ?_⟩
      rw [grpBad, hcast]
      constructor
      · intro hemp
        rw [hemp] at hmp
        exact absurd hmp (List.not_mem_nil _)
      · exact Or.inl (not_all_eq_head_of_two_mem hmp hmq hne)
    · exact ⟨u, List.mem_range.mpr hu,
        hcov2 u (List.mem_range.mpr hu), Or.inr hle⟩
  have hd : deriveMasses s = .error .valueError := by
    rw [deriveMasses]
    exact deriveList_valueError _ _ _ hcov2 hbad2
  by_cases hgc : numTypesRaisesB s = true
  · simp [DataFile.create, hmass, hgc, bind, Except.bind]
  · have hg2 : numTypesRaisesB s = false := by simpa using hgc
    simp [DataFile.create, hmass, hg2, hd, bind, Except.bind, Except.map]

/-- Snapshot whose shared-typeid particles differ in mass only at a typeid
outside `1..num_types`; the C3 counterexample input. -/
def massCexSnap : Snapshot :=
  { mkSnapshot 3 unitBox none (some 1) with
    typeid? := some [1, 2, 2], mass? := some [1, 1, 2] }

/-- C3 counterexample -/
theorem mass_validation_cex :
    massCexSnap.hasMass = true ∧
    (∃ p ∈ massCexSnap.typeidArr.zip massCexSnap.massArr,
      ∃ q ∈ massCexSnap.typeidArr.zip massCexSnap.massArr,
        p.1 = q.1 ∧ p.2 ≠ q.2) ∧
    (DataFile.create massCexSnap none).isOk = true := by
  refine ⟨rfl, ?_, rfl⟩
  decide

/-- Snapshot with a shared typeid carrying two different masses; the C3
witness input. -/
def massWitSnap : Snapshot :=
  { mkSnapshot 2 unitBox none none with
    typeid? := some [1, 1], mass? := some [1, 2] }

/-- C3 witness -/
theorem mass_validation_amended_witness :
    massWitSnap.hasMass = true ∧ massTypesCoveredB massWitSnap = true ∧
    typeidInRangeB massWitSnap = true ∧
    DataFile.create massWitSnap none = .error .valueError :=
  ⟨rfl, by decide, by decide,
    mass_validation_amended massWitSnap none rfl (by decide) (by decide)
      (Or.inl (by decide))⟩

/-- C10 amended -/
theorem mass_empty_type_index_error (s : Snapshot) (atomStyle? : Option Style)
    (hmass : s.hasMass = true) (u0 : Nat) (hu0 : u0 < s.numTypes.toNat)
    (hempty : grpMass s.typeidArr s.massArr ((u0 : Int) + 1) = [])
    (hgood : ∀ u, u < u0 → grpGood s.typeidArr s.massArr u) :
    DataFile.create s atomStyle? = .error .indexError := by
  have hd : deriveMasses s = .error .indexError := by
    rw [deriveMasses, List.range_eq_range']
    exact deriveList_indexError _ _ u0 hempty hgood 0 _ (by omega) (by omega)
  have hg : numTypesRaisesB s = false := by
    cases hgc : numTypesRaisesB s with
    | false => rfl
    | true =>
        exfalso
        rw [numTypesRaisesB, Bool.and_eq_true, Bool.and_eq_true] at hgc
        obtain ⟨⟨hn, ht⟩, he⟩ := hgc
        have hn2 : s.numTypes? = none := by simpa using hn
        have he2 : s.typeidArr = [] := by simpa using he
        have hnum : s.numTypes = 0 := by
          rw [Snapshot.numTypes, hn2]
          show (if s.hasTypeid = true then amax s.typeidArr else 1) = 0
          rw [if_pos ht, he2]
          rfl
        rw [hnum] at hu0
        omega
  simp [DataFile.create, hmass, hd, hg, bind, Except.bind, Except.map]

/-- Snapshot with an empty type 2 but an inconsistent type 1; the C10
counterexample input. -/
def emptyTypeCexSnap : Snapshot :=
  { mkSnapshot 2 unitBox none (some 2) with
    typeid? := some [1, 1], mass? := some [1, 2] }

/-- C10 counterexample -/
theorem mass_empty_type_cex :
    emptyTypeCexSnap.hasMass = true ∧
    grpMass emptyTypeCexSnap.typeidArr emptyTypeCexSnap.massArr 2 = [] ∧
    DataFile.create emptyTypeCexSnap none = .error .valueError := by
  refine ⟨rfl, by decide, rfl⟩

/-- Snapshot with an empty type 2 and a consistent type 1; the C10 witness
input. -/
def emptyTypeWitSnap : Snapshot :=
  { mkSnapshot 2 unitBox none (some 2) with
    typeid? := some [1, 1], mass? := some [1, 1] }

/-- C10 witness -/
theorem mass_empty_type_index_error_witness :
    emptyTypeWitSnap.hasMass = true ∧ (1 : Nat) < emptyTypeWitSnap.numTypes.toNat ∧
    grpMass emptyTypeWitSnap.typeidArr emptyTypeWitSnap.massArr ((1 : Nat) + 1) = [] ∧
    DataFile.create emptyTypeWitSnap none = .error .indexError :=
  ⟨rfl, by decide, by decide,
    mass_empty_type_index_error emptyTypeWitSnap none rfl 1 (by decide) (by decide)
      (by decide)⟩

/-! ### `DataFile.read` (`data.py`) -/

theorem set_getD_self {α : Type} (l : List α) (k : Nat) (d : α)
    (hk : k < l.length) : l.set k (l.getD k d) = l := by
  apply List.ext_getElem?
  intro j
  rcases eq_or_ne k j with rfl | hne
  · rw [List.getElem?_set_self hk, List.getD_eq_getElem l d hk,
      List.getElem?_eq_getElem hk]
  · rw [List.getElem?_set_ne hne]

end Lammpsio
